import Mathlib

/-!
Verification of the `pelicanconf.py` settings document of the dev-log
repository.  The file is purely declarative: module-level assignments of
strings, `None` sentinels for the feed toggles, two tuples of string pairs
and one integer.  We embed each assignment as a Lean definition, collect
them into the ordered key/value document the module evaluates to, and prove
the spec's testable properties about that document.
-/

namespace Pelicanconf

/-- `AUTHOR = 'Thomas Edwards'` (pelicanconf.py line 1). -/
def AUTHOR : String := "Thomas Edwards"

/-- `SITENAME = 'Epic Quest Dev Diaries'` (line 2). -/
def SITENAME : String := "Epic Quest Dev Diaries"

/-- `SITEURL = ''` (line 4). -/
def SITEURL : String := ""

/-- `PATH = "content"` (line 6). -/
def PATH : String := "content"

/-- `TIMEZONE = 'Europe/Rome'` (line 8). -/
def TIMEZONE : String := "Europe/Rome"

/-- `DEFAULT_LANG = 'English'` (line 10). -/
def DEFAULT_LANG : String := "English"

/-- `THEME = 'themes/notmyidea'` (line 12). -/
def THEME : String := "themes/notmyidea"

/-- `FEED_ALL_ATOM = None` (line 15). -/
def FEED_ALL_ATOM : Option String := none

/-- `CATEGORY_FEED_ATOM = None` (line 16). -/
def CATEGORY_FEED_ATOM : Option String := none

/-- `TRANSLATION_FEED_ATOM = None` (line 17). -/
def TRANSLATION_FEED_ATOM : Option String := none

/-- `AUTHOR_FEED_ATOM = None` (line 18). -/
def AUTHOR_FEED_ATOM : Option String := none

/-- `AUTHOR_FEED_RSS = None` (line 19). -/
def AUTHOR_FEED_RSS : Option String := none

/-- `LINKS = (...)` (lines 26-31): the blogroll, four (label, URL) pairs. -/
def LINKS : List (String × String) :=
  [("Pelican", "https://getpelican.com/"),
   ("Python.org", "https://www.python.org/"),
   ("Jinja2", "https://palletsprojects.com/p/jinja/"),
   ("You can modify those links in your config file", "#")]

/-- `SOCIAL = (...)` (lines 34-37): the social widget, two (label, URL) pairs. -/
def SOCIAL : List (String × String) :=
  [("You can add links in your config file", "#"),
   ("Another social link", "#")]

/-- `DEFAULT_PAGINATION = 6` (line 39). -/
def DEFAULT_PAGINATION : Nat := 6

/-- The value space of the settings document: plain strings, nullable
strings (the feed toggles), integers, and lists of (label, URL) pairs. -/
inductive ConfValue where
  | str : String → ConfValue
  | optStr : Option String → ConfValue
  | int : Nat → ConfValue
  | pairs : List (String × String) → ConfValue
  deriving DecidableEq, Repr

/-- The settings document the module evaluates to: the module-level
assignments of pelicanconf.py, in source order, as an ordered key/value
mapping.  The commented-out lines (`RELATIVE_URLS`, `STATIC_PATHS`) are not
assignments and contribute no key. -/
def pelicanconf : List (String × ConfValue) :=
  [("AUTHOR", ConfValue.str AUTHOR),
   ("SITENAME", ConfValue.str SITENAME),
   ("SITEURL", ConfValue.str SITEURL),
   ("PATH", ConfValue.str PATH),
   ("TIMEZONE", ConfValue.str TIMEZONE),
   ("DEFAULT_LANG", ConfValue.str DEFAULT_LANG),
   ("THEME", ConfValue.str THEME),
   ("FEED_ALL_ATOM", ConfValue.optStr FEED_ALL_ATOM),
   ("CATEGORY_FEED_ATOM", ConfValue.optStr CATEGORY_FEED_ATOM),
   ("TRANSLATION_FEED_ATOM", ConfValue.optStr TRANSLATION_FEED_ATOM),
   ("AUTHOR_FEED_ATOM", ConfValue.optStr AUTHOR_FEED_ATOM),
   ("AUTHOR_FEED_RSS", ConfValue.optStr AUTHOR_FEED_RSS),
   ("LINKS", ConfValue.pairs LINKS),
   ("SOCIAL", ConfValue.pairs SOCIAL),
   ("DEFAULT_PAGINATION", ConfValue.int DEFAULT_PAGINATION)]

/-- Whether a document entry is a feed toggle, i.e. carries a nullable
string (the `string|null` fields of the schema). -/
def isFeedToggle : ConfValue → Bool
  | ConfValue.optStr _ => true
  | _ => false

/-- The feed-toggle entries of the document, in order. -/
def feedToggles : List (String × ConfValue) :=
  pelicanconf.filter (fun kv => isFeedToggle kv.2)

/-- Modelled from the spec: the external tool's reading of a feed toggle —
"`null`/unset disables corresponding feed generation; non-null enables with
the given path template".  The feed-generation engine itself is outside
this repository. -/
def feedEnabled : Option String → Bool :=
  Option.isSome

/-- The Site Configuration record of spec section 3: one field per
configuration key. -/
structure SiteConfiguration where
  author : String
  site_name : String
  site_url : String
  content_path : String
  timezone : String
  default_language : String
  theme : String
  feed_all_atom : Option String
  category_feed_atom : Option String
  translation_feed_atom : Option String
  author_feed_atom : Option String
  author_feed_rss : Option String
  links : List (String × String)
  social_links : List (String × String)
  pagination_size : Nat
  deriving DecidableEq, Repr

/-- Constructing the settings document from the static literal values of
pelicanconf.py.  Loading is a pure in-memory construction; the `Unit`
argument marks one act of loading. -/
def loadDocument : Unit → SiteConfiguration :=
  fun _ =>
    ⟨AUTHOR, SITENAME, SITEURL, PATH, TIMEZONE, DEFAULT_LANG, THEME,
     FEED_ALL_ATOM, CATEGORY_FEED_ATOM, TRANSLATION_FEED_ATOM,
     AUTHOR_FEED_ATOM, AUTHOR_FEED_RSS, LINKS, SOCIAL, DEFAULT_PAGINATION⟩

/-- Field-by-field structural equality of two settings documents. -/
def structEq (a b : SiteConfiguration) : Bool :=
  a.author == b.author &&
  a.site_name == b.site_name &&
  a.site_url == b.site_url &&
  a.content_path == b.content_path &&
  a.timezone == b.timezone &&
  a.default_language == b.default_language &&
  a.theme == b.theme &&
  a.feed_all_atom == b.feed_all_atom &&
  a.category_feed_atom == b.category_feed_atom &&
  a.translation_feed_atom == b.translation_feed_atom &&
  a.author_feed_atom == b.author_feed_atom &&
  a.author_feed_rss == b.author_feed_rss &&
  a.links == b.links &&
  a.social_links == b.social_links &&
  a.pagination_size == b.pagination_size

/-- Deserialize a key/value document into the Site Configuration record,
reading each field by its key and requiring the value shape of the schema.
Fails (`none`) when a key is missing or carries the wrong shape. -/
def deserialize (doc : List (String × ConfValue)) : Option SiteConfiguration := do
  let getStr (k : String) : Option String := do
    match doc.lookup k with
    | some (ConfValue.str s) => some s
    | _ => none
  let getOptStr (k : String) : Option (Option String) := do
    match doc.lookup k with
    | some (ConfValue.optStr s) => some s
    | _ => none
  let getInt (k : String) : Option Nat := do
    match doc.lookup k with
    | some (ConfValue.int n) => some n
    | _ => none
  let getPairs (k : String) : Option (List (String × String)) := do
    match doc.lookup k with
    | some (ConfValue.pairs l) => some l
    | _ => none
  let author ← getStr "AUTHOR"
  let site_name ← getStr "SITENAME"
  let site_url ← getStr "SITEURL"
  let content_path ← getStr "PATH"
  let timezone ← getStr "TIMEZONE"
  let default_language ← getStr "DEFAULT_LANG"
  let theme ← getStr "THEME"
  let feed_all_atom ← getOptStr "FEED_ALL_ATOM"
  let category_feed_atom ← getOptStr "CATEGORY_FEED_ATOM"
  let translation_feed_atom ← getOptStr "TRANSLATION_FEED_ATOM"
  let author_feed_atom ← getOptStr "AUTHOR_FEED_ATOM"
  let author_feed_rss ← getOptStr "AUTHOR_FEED_RSS"
  let links ← getPairs "LINKS"
  let social_links ← getPairs "SOCIAL"
  let pagination_size ← getInt "DEFAULT_PAGINATION"
  some ⟨author, site_name, site_url, content_path, timezone,
        default_language, theme, feed_all_atom, category_feed_atom,
        translation_feed_atom, author_feed_atom, author_feed_rss,
        links, social_links, pagination_size⟩

/-- Serialize a Site Configuration record back to its literal key/value
form, in the deterministic source order of pelicanconf.py. -/
def serialize (c : SiteConfiguration) : List (String × ConfValue) :=
  [("AUTHOR", ConfValue.str c.author),
   ("SITENAME", ConfValue.str c.site_name),
   ("SITEURL", ConfValue.str c.site_url),
   ("PATH", ConfValue.str c.content_path),
   ("TIMEZONE", ConfValue.str c.timezone),
   ("DEFAULT_LANG", ConfValue.str c.default_language),
   ("THEME", ConfValue.str c.theme),
   ("FEED_ALL_ATOM", ConfValue.optStr c.feed_all_atom),
   ("CATEGORY_FEED_ATOM", ConfValue.optStr c.category_feed_atom),
   ("TRANSLATION_FEED_ATOM", ConfValue.optStr c.translation_feed_atom),
   ("AUTHOR_FEED_ATOM", ConfValue.optStr c.author_feed_atom),
   ("AUTHOR_FEED_RSS", ConfValue.optStr c.author_feed_rss),
   ("LINKS", ConfValue.pairs c.links),
   ("SOCIAL", ConfValue.pairs c.social_links),
   ("DEFAULT_PAGINATION", ConfValue.int c.pagination_size)]

/-- The field names of the Site Configuration, one per configuration key. -/
inductive FieldName where
  | author | site_name | site_url | content_path | timezone
  | default_language | theme | feed_all_atom | category_feed_atom
  | translation_feed_atom | author_feed_atom | author_feed_rss
  | links | social_links | pagination_size
  deriving DecidableEq, Repr

/-- Reading one field of the document. -/
def readField (c : SiteConfiguration) : FieldName → ConfValue
  | FieldName.author => ConfValue.str c.author
  | FieldName.site_name => ConfValue.str c.site_name
  | FieldName.site_url => ConfValue.str c.site_url
  | FieldName.content_path => ConfValue.str c.content_path
  | FieldName.timezone => ConfValue.str c.timezone
  | FieldName.default_language => ConfValue.str c.default_language
  | FieldName.theme => ConfValue.str c.theme
  | FieldName.feed_all_atom => ConfValue.optStr c.feed_all_atom
  | FieldName.category_feed_atom => ConfValue.optStr c.category_feed_atom
  | FieldName.translation_feed_atom => ConfValue.optStr c.translation_feed_atom
  | FieldName.author_feed_atom => ConfValue.optStr c.author_feed_atom
  | FieldName.author_feed_rss => ConfValue.optStr c.author_feed_rss
  | FieldName.links => ConfValue.pairs c.links
  | FieldName.social_links => ConfValue.pairs c.social_links
  | FieldName.pagination_size => ConfValue.int c.pagination_size

/-- The operations available on the loaded document: reads only, one per
field.  There is no mutating operation. -/
inductive Op where
  | read : FieldName → Op
  deriving DecidableEq, Repr

/-- Applying an operation: a read returns the field's value and leaves the
document unchanged. -/
def applyOp (c : SiteConfiguration) : Op → SiteConfiguration × ConfValue
  | Op.read f => (c, readField c f)

/-- Running a sequence of operations from a starting document, threading
the state. -/
def runOps (c : SiteConfiguration) : List Op → SiteConfiguration
  | [] => c
  | op :: ops => runOps (applyOp c op).1 ops

lemma runOps_eq (c : SiteConfiguration) (ops : List Op) : runOps c ops = c := by
  induction ops with
  | nil => rfl
  | cons op ops ih =>
      cases op with
      | read f => simpa [runOps, applyOp] using ih

end Pelicanconf

namespace Pelicanconf

/-- C1: the constructed document exposes exactly the module-level
assignments AUTHOR, SITENAME, SITEURL, PATH, TIMEZONE, DEFAULT_LANG,
THEME, the five feed fields, LINKS, SOCIAL and DEFAULT_PAGINATION — each
of those keys is present and no other key is. -/
theorem pelicanconf_exact_keys :
    pelicanconf.map Prod.fst =
      ["AUTHOR", "SITENAME", "SITEURL", "PATH", "TIMEZONE", "DEFAULT_LANG",
       "THEME", "FEED_ALL_ATOM", "CATEGORY_FEED_ATOM",
       "TRANSLATION_FEED_ATOM", "AUTHOR_FEED_ATOM", "AUTHOR_FEED_RSS",
       "LINKS", "SOCIAL", "DEFAULT_PAGINATION"] := by
  rfl

/-- C2 counterexample: the document does not contain exactly four nullable
feed-toggle fields — it contains five. -/
theorem feedToggles_not_four :
    ¬ feedToggles.length = 4 := by
  decide

/-- C2 (amended): the document contains exactly five nullable feed-toggle
fields — FEED_ALL_ATOM, CATEGORY_FEED_ATOM, TRANSLATION_FEED_ATOM,
AUTHOR_FEED_ATOM, AUTHOR_FEED_RSS — and a toggle disables the
corresponding feed generation when null and enables it with the given path
template when non-null. -/
theorem feedToggles_exactly_five :
    feedToggles.map Prod.fst =
      ["FEED_ALL_ATOM", "CATEGORY_FEED_ATOM", "TRANSLATION_FEED_ATOM",
       "AUTHOR_FEED_ATOM", "AUTHOR_FEED_RSS"] ∧
    feedToggles.length = 5 ∧
    feedEnabled none = false ∧
    ∀ t : String, feedEnabled (some t) = true := by
  refine ⟨by decide, by decide, rfl, fun t => rfl⟩

/-- C3: every feed-toggle field of the document — all five of
FEED_ALL_ATOM, CATEGORY_FEED_ATOM, TRANSLATION_FEED_ATOM,
AUTHOR_FEED_ATOM, AUTHOR_FEED_RSS — is null and is exposed as a null
option, never coerced to an empty string or to a default path value. -/
theorem feed_fields_all_none :
    (∀ kv ∈ feedToggles, kv.2 = ConfValue.optStr none) ∧
    pelicanconf.lookup "FEED_ALL_ATOM" = some (ConfValue.optStr none) ∧
    pelicanconf.lookup "CATEGORY_FEED_ATOM" = some (ConfValue.optStr none) ∧
    pelicanconf.lookup "TRANSLATION_FEED_ATOM" = some (ConfValue.optStr none) ∧
    pelicanconf.lookup "AUTHOR_FEED_ATOM" = some (ConfValue.optStr none) ∧
    pelicanconf.lookup "AUTHOR_FEED_RSS" = some (ConfValue.optStr none) ∧
    (∀ s : String, ConfValue.optStr none ≠ ConfValue.optStr (some s)) ∧
    (∀ s : String, ConfValue.optStr none ≠ ConfValue.str s) := by
  refine ⟨by decide, rfl, rfl, rfl, rfl, rfl, ?_, ?_⟩
  · intro s h
    cases h
  · intro s h
    cases h

/-- C4: the document's pagination size is the positive integer 6. -/
theorem pagination_six_positive :
    pelicanconf.lookup "DEFAULT_PAGINATION" =
      some (ConfValue.int DEFAULT_PAGINATION) ∧
    DEFAULT_PAGINATION = 6 ∧ DEFAULT_PAGINATION > 0 := by
  refine ⟨rfl, rfl, by decide⟩

/-- C5: iterating LINKS and SOCIAL yields their elements in insertion
order with label and URL text unaltered, every element is a pair of two
strings, LINKS has exactly 4 entries and SOCIAL has exactly 2. -/
theorem links_social_ordered :
    LINKS = [("Pelican", "https://getpelican.com/"),
             ("Python.org", "https://www.python.org/"),
             ("Jinja2", "https://palletsprojects.com/p/jinja/"),
             ("You can modify those links in your config file", "#")] ∧
    LINKS.length = 4 ∧
    SOCIAL = [("You can add links in your config file", "#"),
              ("Another social link", "#")] ∧
    SOCIAL.length = 2 := by
  refine ⟨rfl, rfl, rfl, rfl⟩

/-- C6: construction is deterministic and idempotent — loading the
document twice from the identical literal input yields two field-by-field
equal records. -/
theorem loadDocument_idempotent :
    loadDocument () = loadDocument () ∧
    structEq (loadDocument ()) (loadDocument ()) = true := by
  refine ⟨rfl, by decide⟩

/-- C7: serializing the constructed document back to its literal key/value
form (in the deterministic source order) reproduces the original document
exactly — deserialize then serialize is the identity on the key/value
content. -/
theorem serialize_roundtrip :
    Option.map serialize (deserialize pelicanconf) = some pelicanconf := by
  rfl

/-- C8: the author field and the site_name field are the non-empty strings
of the source. -/
theorem author_sitename_nonempty :
    AUTHOR = "Thomas Edwards" ∧ AUTHOR ≠ "" ∧
    SITENAME = "Epic Quest Dev Diaries" ∧ SITENAME ≠ "" := by
  refine ⟨rfl, by decide, rfl, by decide⟩

/-- C9: the document is constructed once and never mutated — after any
sequence of operations (all of which are reads), every read of any field
returns the same value as a read on the freshly constructed document. -/
theorem reads_never_change_document (ops : List Op) (f : FieldName) :
    readField (runOps (loadDocument ()) ops) f =
      readField (loadDocument ()) f := by
  rw [runOps_eq]

/-- C10: the site_url field equals the empty string (relative-URL mode);
it is a plain string field, present and non-null, only possibly empty. -/
theorem siteurl_empty_string :
    SITEURL = "" ∧
    pelicanconf.lookup "SITEURL" = some (ConfValue.str SITEURL) ∧
    (∀ o : Option String,
      pelicanconf.lookup "SITEURL" ≠ some (ConfValue.optStr o)) := by
  refine ⟨rfl, rfl, ?_⟩
  intro o h
  simp [pelicanconf, List.lookup] at h

end Pelicanconf
